import Mathlib

/-!
Shallow embedding of the WatchTower AI agent core (backend/agents) and proofs
of the testable properties of the spec against it.

Conventions of the embedding:
* Python `datetime` instants are rationals (seconds on a global clock);
  `timedelta(minutes=k)` becomes the rational `60 * k`.
* Python `float` arithmetic is embedded as exact rational arithmetic (`ℚ`);
  the single square root in the Pearson coefficient lives in `ℝ`.
* Python `dict`s that the code mutates are association lists that keep
  insertion order (`dictInsert` overwrites in place, like CPython dicts);
  `dict.values()` iteration order is list order.
* `datetime.now()` is passed explicitly as a `now : ℚ` parameter.
* Numeric string formatting (`f"{v:.1f}"` and friends) is abstracted by
  `toString` on `ℚ`; no claim inspects those fragments of the text.
-/

namespace WatchTower

/-- Health status levels (`HealthStatus` enum in alert_agent.py). -/
inductive HealthStatus where
  | healthy
  | warning
  | critical
  | unknown
deriving DecidableEq, Repr

/-- The `.value` string of a `HealthStatus` member. -/
def HealthStatus.value : HealthStatus → String
  | .healthy => "healthy"
  | .warning => "warning"
  | .critical => "critical"
  | .unknown => "unknown"

/-- Embeds `HealthStatus(status if status in ["healthy","warning","critical"] else "unknown")`
from `_monitor_category`. -/
def healthStatusOfString (s : String) : HealthStatus :=
  if s = "healthy" then .healthy
  else if s = "warning" then .warning
  else if s = "critical" then .critical
  else .unknown

/-- Health metric data structure (`HealthMetric` dataclass). -/
structure HealthMetric where
  service_name : String
  metric_name : String
  current_value : ℚ
  threshold_warning : Option ℚ
  threshold_critical : Option ℚ
  status : HealthStatus
  timestamp : ℚ
  trend : String
deriving DecidableEq, Repr

/-- Health alert data structure (`HealthAlert` dataclass).  The `details`
dict built in `_create_alert` is flattened into explicit `details_*` fields,
one per key the code stores. -/
structure HealthAlert where
  alert_id : String
  service_name : String
  category : String
  severity : String
  message : String
  details_metric_name : String
  details_current_value : ℚ
  details_threshold_warning : Option ℚ
  details_threshold_critical : Option ℚ
  details_trend : String
  timestamp : ℚ
  resolved : Bool := false
deriving DecidableEq, Repr

/-- CPython-dict insertion on an association list: overwrite in place when the
key is present, append otherwise. -/
def dictInsert {α : Type} (l : List (String × α)) (k : String) (v : α) :
    List (String × α) :=
  if l.any (fun p => p.1 == k) then
    l.map (fun p => if p.1 == k then (k, v) else p)
  else
    l ++ [(k, v)]

/-- Embeds `HealthAgent._store_health_metric` restricted to the history
list of one service: append, then evict the oldest entry while over the cap of 100. -/
def storeHealthMetric (hist : List HealthMetric) (metric : HealthMetric) :
    List HealthMetric :=
  let h := hist ++ [metric]
  if h.length > 100 then h.drop 1 else h

/-- Embeds `HealthAgent._calculate_trend`.  `hist` is `self.health_history[service_name]`
(the empty list when the service is absent, which yields "stable" exactly as
the early return does); `now` is `datetime.now()`; `current_value` is the
(unused) third Python parameter. -/
def calculateTrend (hist : List HealthMetric) (metric_name : String)
    (now : ℚ) (current_value : ℚ) : String :=
  let recent_metrics := hist.filter
    (fun m => m.metric_name == metric_name && decide (now - 900 < m.timestamp))
  if recent_metrics.length < 3 then "stable"
  else
    let values := recent_metrics.map (fun m => m.current_value)
    let n := values.length
    let avg_first_half := (values.take (n / 2)).sum / ((n / 2 : ℕ) : ℚ)
    let avg_second_half := (values.drop (n / 2)).sum / ((n - n / 2 : ℕ) : ℚ)
    if avg_second_half > avg_first_half * (11 / 10 : ℚ) then "improving"
    else if avg_second_half < avg_first_half * (9 / 10 : ℚ) then "degrading"
    else "stable"

/-- Modelled from the words of the spec (trend law, §8.2): classify a same-metric
sample sequence by comparing the mean of its second half against the mean of
its first half; fewer than 3 samples is always "stable".  Used only to be
compared against `calculateTrend`. -/
def trendLawSpec (values : List ℚ) : String :=
  if values.length < 3 then "stable"
  else
    let first := values.take (values.length / 2)
    let second := values.drop (values.length / 2)
    let mean_first := first.sum / (first.length : ℚ)
    let mean_second := second.sum / (second.length : ℚ)
    if mean_second > mean_first * (11 / 10 : ℚ) then "improving"
    else if mean_second < mean_first * (9 / 10 : ℚ) then "degrading"
    else "stable"

/-- Embeds `HealthAgent._evaluate_metric_health`: the static threshold table, with
"higher is better" only for the cache hit ratio; any metric name outside the
table falls through to HEALTHY. -/
def evaluateMetricHealth (metric_name : String) (value : ℚ) : HealthStatus :=
  if metric_name = "cache_hit_ratio" then
    if value < 60 then .critical
    else if value < 80 then .warning
    else .healthy
  else if metric_name = "database_connections" then
    if value > 95 then .critical
    else if value > 80 then .warning
    else .healthy
  else if metric_name = "unprocessed_messages" then
    if value > 500 then .critical
    else if value > 100 then .warning
    else .healthy
  else if metric_name = "pod_count" then
    if value > 100 then .critical
    else if value > 50 then .warning
    else .healthy
  else .healthy

/-- The fixed key set of the threshold table in `_evaluate_metric_health`
(also the key set of `critical_queries` in `_monitor_critical_metrics`). -/
def criticalMetricNames : List String :=
  ["cache_hit_ratio", "database_connections", "unprocessed_messages", "pod_count"]

/-- The `status_emoji` dict of `_generate_alert_message`, with its `.get`
default for the missing `unknown` key. -/
def statusEmoji : HealthStatus → String
  | .critical => "🚨"
  | .warning => "⚠️"
  | .healthy => "✅"
  | .unknown => "❓"

/-- Embeds `HealthAgent._generate_alert_message`. -/
def generateAlertMessage (metric : HealthMetric) : String :=
  let emoji := statusEmoji metric.status
  if metric.metric_name = "service_health" then
    emoji ++ " " ++ metric.service_name ++ " service is " ++ metric.status.value
  else if metric.metric_name = "cache_hit_ratio" then
    emoji ++ " Cache hit ratio dropped to " ++ toString metric.current_value
      ++ "% (threshold: " ++ toString metric.threshold_warning ++ "%)"
  else if metric.metric_name = "database_connections" then
    emoji ++ " Database connections at " ++ toString metric.current_value
      ++ " (threshold: " ++ toString metric.threshold_warning ++ ")"
  else if metric.metric_name = "unprocessed_messages" then
    emoji ++ " Unprocessed messages: " ++ toString metric.current_value
      ++ " (threshold: " ++ toString metric.threshold_warning ++ ")"
  else
    emoji ++ " " ++ metric.service_name ++ " " ++ metric.metric_name ++ ": "
      ++ toString metric.current_value ++ " (trend: " ++ metric.trend ++ ")"

/-- The `HealthMetric` built by `_monitor_category` for one service whose
snapshot entry reports the status string `status`; `hist` is the health history of that service and `now` is `datetime.now()`. -/
def monitorCategoryMetric (service_name : String) (status : String)
    (hist : List HealthMetric) (now : ℚ) : HealthMetric :=
  { service_name := service_name
    metric_name := "service_health"
    current_value := if status = "healthy" then 1 else 0
    threshold_warning := some 1
    threshold_critical := some 0
    status := healthStatusOfString status
    timestamp := now
    trend := calculateTrend hist "service_health"
      now (if status = "healthy" then 1 else 0) }

/-- Substring containment, at the level of the underlying character lists. -/
def strContains (msg sub : String) : Prop :=
  ∃ pre post, msg.data = pre ++ sub.data ++ post

/-- The alert id `f"{service}_{metric}_{int(timestamp)}"` of `_create_alert`
(for the nonnegative epoch timestamps the agent uses, `int` truncation is
the floor). -/
def alertIdOf (metric : HealthMetric) : String :=
  metric.service_name ++ "_" ++ metric.metric_name ++ "_" ++ toString ⌊metric.timestamp⌋

/-- The `HealthAlert` value constructed by `_create_alert`;
`getCategory` stands for `_get_service_category` (a read of the static
service registry). -/
def mkAlert (getCategory : String → String) (metric : HealthMetric) : HealthAlert :=
  { alert_id := alertIdOf metric
    service_name := metric.service_name
    category := getCategory metric.service_name
    severity := metric.status.value
    message := generateAlertMessage metric
    details_metric_name := metric.metric_name
    details_current_value := metric.current_value
    details_threshold_warning := metric.threshold_warning
    details_threshold_critical := metric.threshold_critical
    details_trend := metric.trend
    timestamp := metric.timestamp
    resolved := false }

/-- Embeds `HealthAgent._find_similar_alert`: first active alert with the same
service and metric name created inside the cooldown window
(`alert_cooldown = 300`); `now` is `datetime.now()`. -/
def findSimilarAlert (now : ℚ) (active : List (String × HealthAlert))
    (metric : HealthMetric) : Option HealthAlert :=
  (active.map Prod.snd).find? (fun alert =>
    alert.service_name == metric.service_name &&
    alert.details_metric_name == metric.metric_name &&
    decide (now - 300 < alert.timestamp))

/-- Embeds `HealthAgent._create_alert`, restricted to its effect on the
`active_alerts` dict: suppress when a similar active alert is inside the
cooldown window, otherwise store the new alert under its id. -/
def createAlert (getCategory : String → String) (now : ℚ)
    (active : List (String × HealthAlert)) (metric : HealthMetric) :
    List (String × HealthAlert) :=
  match findSimilarAlert now active metric with
  | some _ => active
  | none => dictInsert active (alertIdOf metric) (mkAlert getCategory metric)

/-- The `recent_metrics` list of `_should_resolve_alert`: same-service
(`hist` is keyed by the service of the alert), same-metric samples of the last
5 minutes. -/
def recentSameMetric (hist : String → List HealthMetric)
    (alert : HealthAlert) (current_time : ℚ) : List HealthMetric :=
  (hist alert.service_name).filter
    (fun m => m.metric_name == alert.details_metric_name &&
      decide (current_time - 300 < m.timestamp))

/-- Embeds `HealthAgent._should_resolve_alert`: auto-resolve after 30 minutes,
otherwise resolve when the most recent same-service/same-metric sample of
the last 5 minutes is healthy.  `hist` maps a service name to its health
history (the empty list when absent, matching the `in` guard). -/
def shouldResolveAlert (hist : String → List HealthMetric)
    (alert : HealthAlert) (current_time : ℚ) : Bool :=
  if current_time - alert.timestamp > 1800 then true
  else
    match (recentSameMetric hist alert current_time).getLast? with
    | some latest => latest.status == .healthy
    | none => false

/-- The resolution envelope built by `_evaluate_alerts` on resolution
(`create_message` with the resolved alert and the resolution time). -/
structure ResolutionEnvelope where
  sender : String
  recipient : String
  alert_resolved : HealthAlert
  resolution_time : ℚ
  priority : ℕ
deriving DecidableEq, Repr

/-- The status envelope `_evaluate_alerts` emits for one resolved alert. -/
def mkResolutionEnvelope (agent_id : String) (alert : HealthAlert)
    (current_time : ℚ) : ResolutionEnvelope :=
  { sender := agent_id
    recipient := "analysis_agent"
    alert_resolved := { alert with resolved := true }
    resolution_time := current_time
    priority := 1 }

/-- Embeds `HealthAgent._evaluate_alerts`: returns the surviving `active_alerts`
dict (resolved entries deleted) together with the emitted resolution
envelopes, one per resolved alert. -/
def evaluateAlerts (agent_id : String) (hist : String → List HealthMetric)
    (current_time : ℚ) (active : List (String × HealthAlert)) :
    List (String × HealthAlert) × List ResolutionEnvelope :=
  (active.filter (fun p => !(shouldResolveAlert hist p.2 current_time)),
   (active.filter (fun p => shouldResolveAlert hist p.2 current_time)).map
     (fun p => mkResolutionEnvelope agent_id p.2 current_time))

/-- Message kinds between agents (`MessageType` enum in base_agent.py). -/
inductive MessageType where
  | query
  | response
  | alert
  | insight
  | action
  | status
deriving DecidableEq, Repr

/-- The `.value` string of a `MessageType` member. -/
def MessageType.value : MessageType → String
  | .query => "query"
  | .response => "response"
  | .alert => "alert"
  | .insight => "insight"
  | .action => "action"
  | .status => "status"

/-- The agent envelope (`AgentMessage` dataclass).  The untyped `content`
payload dict is abstracted as string key/value pairs; the optional context
likewise. -/
structure AgentMessage where
  id : String
  sender : String
  recipient : String
  message_type : MessageType
  content : List (String × String)
  timestamp : ℚ
  priority : ℕ := 1
  context : Option (List (String × String)) := none
deriving DecidableEq, Repr

/-- The dictionary form produced by `AgentMessage.to_dict` (the
`message_type` field is rendered through `.value`; the `isoformat` rendering of the timestamp is kept as the instant itself). -/
structure MessageDict where
  id : String
  sender : String
  recipient : String
  message_type : String
  content : List (String × String)
  timestamp : ℚ
  priority : ℕ
  context : Option (List (String × String))
deriving DecidableEq, Repr

/-- Embeds `AgentMessage.to_dict`. -/
def AgentMessage.toDict (m : AgentMessage) : MessageDict :=
  { id := m.id
    sender := m.sender
    recipient := m.recipient
    message_type := m.message_type.value
    content := m.content
    timestamp := m.timestamp
    priority := m.priority
    context := m.context }

/-- The communication hub (`AgentCommunicationHub`): the routing table is an
association list from agent id to the inbound queue of that agent (the only part
of a registered `BaseAgent` that `receive_message` touches), plus the
bounded message history (`max_history = 1000`). -/
structure HubState where
  agents : List (String × List AgentMessage)
  message_history : List AgentMessage
deriving DecidableEq, Repr

/-- Embeds `AgentCommunicationHub._handle_message`: append to the bounded history
first, then route — broadcast to every registered agent except the sender,
direct to a registered recipient, otherwise log and drop. -/
def handleMessage (st : HubState) (message : AgentMessage) : HubState :=
  let h := st.message_history ++ [message]
  let history := if h.length > 1000 then h.drop 1 else h
  let agents :=
    if message.recipient = "broadcast" then
      st.agents.map (fun p =>
        if p.1 == message.sender then p else (p.1, p.2 ++ [message]))
    else if (st.agents.lookup message.recipient).isSome then
      st.agents.map (fun p =>
        if p.1 == message.recipient then (p.1, p.2 ++ [message]) else p)
    else
      st.agents
  { agents := agents, message_history := history }

/-- Embeds `AgentCommunicationHub.get_message_history`: `self.message_history[-limit:]`
converted through `to_dict`.  Note the Python slice: `-0` is `0`, so
`limit = 0` returns the whole list. -/
def getMessageHistory (st : HubState) (limit : ℕ) : List MessageDict :=
  if limit = 0 then
    st.message_history.map AgentMessage.toDict
  else
    (st.message_history.drop (st.message_history.length - limit)).map
      AgentMessage.toDict

/-- System overview counters as produced by the health agent operation
`_get_system_health_overview` and consumed by `_process_health_results_node`
(only the four count fields the node reads are modelled). -/
structure Overview where
  total_services : ℕ
  healthy_services : ℕ
  warning_services : ℕ
  critical_services : ℕ
deriving DecidableEq, Repr

/-- The summary dict built by `_process_health_results_node`. -/
structure HealthSummary where
  overall_health : String
  total_services : ℕ
  healthy_services : ℕ
  issues_detected : List String
deriving DecidableEq, Repr

/-- Values stored in the `results` dict of the workflow state by the two
health-check workflow nodes.  `healthData` holds the response content of the
health agent (`some` overview when the content carries an `"overview"` key). -/
inductive RVal where
  | healthData (overview : Option Overview)
  | healthSummary (summary : HealthSummary)
deriving DecidableEq, Repr

/-- The LangGraph `AgentState` for a workflow run (the `messages` channel is
unused by the modelled nodes and omitted). -/
structure WFState where
  workflow_type : String
  request_id : String
  current_step : String
  results : List (String × RVal)
  error : Option String
  metadata : List (String × String)
deriving DecidableEq, Repr

/-- Embeds `WatchTowerExecutor._health_check_node`: `response` is the optional reply
of `process_message` of the health agent to the synthetic system-overview
query (`none` models a missing reply, which makes the node set the error
field and leave the rest of the state alone). -/
def healthCheckNode (response : Option (Option Overview)) (st : WFState) : WFState :=
  match response with
  | some content =>
      { st with
        results := dictInsert st.results "health_data" (.healthData content)
        current_step := "health_check_completed" }
  | none => { st with error := some "Failed to get health data" }

/-- Embeds `WatchTowerExecutor._process_health_results_node`: summarize whatever
`results["health_data"]` holds (defaulting to an empty dict) and write the
summary; runs unconditionally, error or not. -/
def processHealthResultsNode (st : WFState) : WFState :=
  let health_data : Option Overview :=
    match st.results.lookup "health_data" with
    | some (.healthData c) => c
    | _ => none
  let base : HealthSummary :=
    { overall_health := "healthy"
      total_services := 0
      healthy_services := 0
      issues_detected := [] }
  let summary : HealthSummary :=
    match health_data with
    | some overview =>
        let s := { base with
          total_services := overview.total_services
          healthy_services := overview.healthy_services }
        if overview.critical_services > 0 then
          { s with
            overall_health := "critical"
            issues_detected := s.issues_detected ++
              [toString overview.critical_services ++ " critical services"] }
        else if overview.warning_services > 0 then
          { s with
            overall_health := "warning"
            issues_detected := s.issues_detected ++
              [toString overview.warning_services ++ " services with warnings"] }
        else s
    | none => base
  { st with
    results := dictInsert st.results "health_summary" (.healthSummary summary)
    current_step := "results_processed" }

/-- Sequential execution of a compiled linear graph: every node runs, in
order — the edges of the health-check graph are unconditional. -/
def runNodes (nodes : List (WFState → WFState)) (st : WFState) : WFState :=
  nodes.foldl (fun s node => node s) st

/-- Embeds `WorkflowResult` (the wall-clock `execution_time` field is dropped). -/
structure WorkflowResult where
  request_id : String
  workflow_type : String
  success : Bool
  result : List (String × RVal)
  error_message : Option String
deriving DecidableEq, Repr

/-- The initial shared state built by `execute_workflow` for one run. -/
def initialAgentState (workflow_type request_id : String)
    (params : List (String × String)) : WFState :=
  { workflow_type := workflow_type
    request_id := request_id
    current_step := "started"
    results := []
    error := none
    metadata := params }

/-- The tail of `WatchTowerExecutor.execute_workflow` once the workflow was
found: build the initial state, run every node, and package the final state
(`success` is `final_state.get("error") is None`). -/
def executeWorkflowNodes (nodes : List (WFState → WFState))
    (workflow_type request_id : String) (params : List (String × String)) :
    WorkflowResult :=
  let final_state := runNodes nodes (initialAgentState workflow_type request_id params)
  { request_id := request_id
    workflow_type := workflow_type
    success := final_state.error.isNone
    result := final_state.results
    error_message := final_state.error }

/-- The health-check workflow of `_create_health_check_workflow`: the node
`health_check` followed unconditionally by `process_results`. -/
def executeHealthCheckWorkflow (response : Option (Option Overview))
    (request_id : String) (params : List (String × String)) : WorkflowResult :=
  executeWorkflowNodes [healthCheckNode response, processHealthResultsNode]
    "health_check" request_id params

/-- The bound `n = min(len(values1), len(values2))` in
`_calculate_correlation_coefficient`. -/
def corrN (values1 values2 : List ℚ) : ℕ :=
  min values1.length values2.length

/-- The `values[-n:]` slice (last `n` values). -/
def lastSlice (values : List ℚ) (n : ℕ) : List ℚ :=
  values.drop (values.length - n)

/-- The mean `sum(x) / n` as the code computes it. -/
def sliceMean (x : List ℚ) (n : ℕ) : ℚ := x.sum / (n : ℚ)

/-- The numerator `sum((x[i] - mean_x) * (y[i] - mean_y) for i in range(n))`. -/
def corrNumerator (x y : List ℚ) (n : ℕ) : ℚ :=
  ∑ i in Finset.range n,
    (x.getD i 0 - sliceMean x n) * (y.getD i 0 - sliceMean y n)

/-- The sum `sum((x[i] - mean_x) ** 2 for i in range(n))`. -/
def corrSumSq (x : List ℚ) (n : ℕ) : ℚ :=
  ∑ i in Finset.range n, (x.getD i 0 - sliceMean x n) ^ 2

/-- The radicand `sum_sq_x * sum_sq_y` of the denominator, on the two
last-`n` slices. -/
def corrDenomSq (values1 values2 : List ℚ) (n : ℕ) : ℚ :=
  corrSumSq (lastSlice values1 n) n * corrSumSq (lastSlice values2 n) n

/-- Embeds `AnalysisAgent._calculate_correlation_coefficient`: Pearson coefficient
over the last `n = min(len₁, len₂)` samples; `0.0` for fewer than 2 samples
and for a vanishing denominator (`(sum_sq_x * sum_sq_y) ** 0.5`, the only
place a real square root occurs). -/
noncomputable def calculateCorrelationCoefficient (values1 values2 : List ℚ) : ℝ :=
  if corrN values1 values2 < 2 then 0
  else if Real.sqrt ((corrDenomSq values1 values2 (corrN values1 values2) : ℚ) : ℝ) = 0
    then 0
  else
    ((corrNumerator (lastSlice values1 (corrN values1 values2))
        (lastSlice values2 (corrN values1 values2)) (corrN values1 values2) : ℚ) : ℝ) /
      Real.sqrt ((corrDenomSq values1 values2 (corrN values1 values2) : ℚ) : ℝ)

/-- The dedup invariant of the spec (§3): no two distinct entries of the
active-alert map share the same (service, metric) pair with both creation
timestamps inside the cooldown window ending at `now`. -/
def dedupFree (now : ℚ) (active : List (String × HealthAlert)) : Prop :=
  List.Pairwise (fun p q =>
    p.2.service_name = q.2.service_name →
    p.2.details_metric_name = q.2.details_metric_name →
    now - 300 < p.2.timestamp → now - 300 < q.2.timestamp → False) active

/-! Concrete sample data, used by the counterexample and witness theorems. -/

/-- A sample envelope whose recipient is registered nowhere. -/
def msgGhost : AgentMessage :=
  { id := "m1"
    sender := "health_agent"
    recipient := "ghost_agent"
    message_type := .status
    content := []
    timestamp := 0 }

/-- A hub with no registered agents and empty history. -/
def hubEmpty : HubState :=
  { agents := [], message_history := [] }

/-- A hub whose history holds exactly one envelope. -/
def hubOne : HubState :=
  { agents := [], message_history := [msgGhost] }

/-- A sample warning metric (used to exercise the history cap). -/
def sampleMetric : HealthMetric :=
  { service_name := "svcA"
    metric_name := "service_health"
    current_value := 0
    threshold_warning := some 1
    threshold_critical := some 0
    status := .warning
    timestamp := 0
    trend := "stable" }

/-- A stored active alert for (svcA, service_health) created at t = 900. -/
def alertW : HealthAlert :=
  { alert_id := "svcA_service_health_900"
    service_name := "svcA"
    category := "core"
    severity := "warning"
    message := "svcA service is warning"
    details_metric_name := "service_health"
    details_current_value := 0
    details_threshold_warning := some 1
    details_threshold_critical := some 0
    details_trend := "stable"
    timestamp := 900 }

/-- A metric for the same (svcA, service_health) pair observed at t = 1000,
inside the cooldown window of `alertW`. -/
def metricW : HealthMetric :=
  { service_name := "svcA"
    metric_name := "service_health"
    current_value := 0
    threshold_warning := some 1
    threshold_critical := some 0
    status := .warning
    timestamp := 1000
    trend := "stable" }

/-- A healthy (svcB, service_health) sample at t = 400. -/
def mHealthyC4 : HealthMetric :=
  { service_name := "svcB"
    metric_name := "service_health"
    current_value := 1
    threshold_warning := some 1
    threshold_critical := some 0
    status := .healthy
    timestamp := 400
    trend := "stable" }

/-- A critical (svcB, service_health) sample at t = 500. -/
def mCriticalC4 : HealthMetric :=
  { service_name := "svcB"
    metric_name := "service_health"
    current_value := 0
    threshold_warning := some 1
    threshold_critical := some 0
    status := .critical
    timestamp := 500
    trend := "stable" }

/-- A health history where svcB saw a healthy sample and then a critical one,
both within the last 5 minutes of `current_time = 600`. -/
def histC4 : String → List HealthMetric :=
  fun s => if s = "svcB" then [mHealthyC4, mCriticalC4] else []

/-- An active alert for (svcB, service_health) created at t = 0
(10 minutes old at `current_time = 600`). -/
def alertC4 : HealthAlert :=
  { alert_id := "svcB_service_health_0"
    service_name := "svcB"
    category := "core"
    severity := "critical"
    message := "svcB service is critical"
    details_metric_name := "service_health"
    details_current_value := 0
    details_threshold_warning := some 1
    details_threshold_critical := some 0
    details_trend := "stable"
    timestamp := 0 }

/-- An alert created at t = 0, far older than 30 minutes at t = 10000. -/
def alertOldW : HealthAlert :=
  { alert_id := "svcC_service_health_0"
    service_name := "svcC"
    category := "core"
    severity := "warning"
    message := "svcC service is warning"
    details_metric_name := "service_health"
    details_current_value := 0
    details_threshold_warning := some 1
    details_threshold_critical := some 0
    details_trend := "stable"
    timestamp := 0 }

/-! Theorems. -/

theorem storeHealthMetric_length_le (hist : List HealthMetric) (m : HealthMetric)
    (h : hist.length ≤ 100) : (storeHealthMetric hist m).length ≤ 100 := by
  unfold storeHealthMetric
  by_cases hc : (hist ++ [m]).length > 100
  · rw [if_pos hc]
    simp only [List.length_drop, List.length_append, List.length_cons,
      List.length_nil] at *
    omega
  · rw [if_neg hc]
    omega

theorem storeHealthMetric_eq_window (hist : List HealthMetric) (m : HealthMetric)
    (h : hist.length ≤ 100) :
    storeHealthMetric hist m = (hist ++ [m]).drop ((hist ++ [m]).length - 100) := by
  unfold storeHealthMetric
  by_cases hc : (hist ++ [m]).length > 100
  · rw [if_pos hc]
    congr 1
    simp only [List.length_append, List.length_cons, List.length_nil] at *
    omega
  · rw [if_neg hc]
    have h0 : (hist ++ [m]).length - 100 = 0 := by omega
    rw [h0, List.drop_zero]

theorem foldl_store_window :
    ∀ (ms acc : List HealthMetric), acc.length ≤ 100 →
      ms.foldl storeHealthMetric acc = (acc ++ ms).drop ((acc ++ ms).length - 100) := by
  intro ms
  induction ms with
  | nil =>
      intro acc h
      rw [List.foldl_nil, List.append_nil, Nat.sub_eq_zero_of_le h, List.drop_zero]
  | cons m ms ih =>
      intro acc h
      rw [List.foldl_cons, ih _ (storeHealthMetric_length_le acc m h)]
      by_cases hc : (acc ++ [m]).length > 100
      · have hstore : storeHealthMetric acc m = (acc ++ [m]).drop 1 := by
          unfold storeHealthMetric
          rw [if_pos hc]
        have hacc : acc.length = 100 := by
          simp only [List.length_append, List.length_cons, List.length_nil] at hc
          omega
        have hsplit : (acc ++ [m]).drop 1 ++ ms = ((acc ++ [m]) ++ ms).drop 1 :=
          (List.drop_append_of_le_length (by
            simp only [List.length_append, List.length_cons, List.length_nil]
            omega)).symm
        rw [hstore, hsplit, List.drop_drop]
        have hshape : acc ++ m :: ms = (acc ++ [m]) ++ ms := by
          rw [List.append_assoc, List.singleton_append]
        rw [hshape]
        congr 1
        simp only [List.length_drop, List.length_append, List.length_cons,
          List.length_nil]
        omega
      · have hstore : storeHealthMetric acc m = acc ++ [m] := by
          unfold storeHealthMetric
          rw [if_neg hc]
        rw [hstore, List.append_assoc, List.singleton_append]

/-- C8: after any sequence of `_store_health_metric` calls starting from a
history within the cap, the history of a service holds at most 100 metrics; and
inserting 150 metrics into an empty history leaves exactly the 100 most
recent (the 50 oldest evicted, in insertion order). -/
theorem history_cap :
    ∀ (ms hist : List HealthMetric), hist.length ≤ 100 →
      (ms.foldl storeHealthMetric hist).length ≤ 100 ∧
      (hist = [] → ms.length = 150 →
        ms.foldl storeHealthMetric hist = ms.drop 50) := by
  intro ms hist h
  constructor
  · rw [foldl_store_window ms hist h, List.length_drop]
    omega
  · intro hnil hlen
    subst hnil
    rw [foldl_store_window ms [] (by simp), List.nil_append, hlen]

/-- Witness for C8 at a concrete 150-element insertion sequence. -/
theorem history_cap_witness :
    (List.replicate 150 sampleMetric).foldl storeHealthMetric [] =
      (List.replicate 150 sampleMetric).drop 50 :=
  (history_cap (List.replicate 150 sampleMetric) [] (by simp)).2 rfl (by simp)

/-- C10: for every metric name outside the fixed critical-metric table,
`_evaluate_metric_health` returns HEALTHY regardless of the value, so the
critical-metrics monitoring pass never alerts on an unrecognized name. -/
theorem unknown_metric_always_healthy :
    ∀ (metric_name : String) (value : ℚ),
      metric_name ∉ criticalMetricNames →
      evaluateMetricHealth metric_name value = .healthy := by
  intro name v h
  simp only [criticalMetricNames, List.mem_cons, List.not_mem_nil, or_false,
    not_or] at h
  obtain ⟨h1, h2, h3, h4⟩ := h
  simp [evaluateMetricHealth, h1, h2, h3, h4]

/-- Witness for C10 at a concrete unrecognized metric name. -/
theorem unknown_metric_always_healthy_witness :
    evaluateMetricHealth "error_rate" 12345 = .healthy :=
  unknown_metric_always_healthy "error_rate" 12345 (by decide)

/-- C2: `_calculate_trend` realizes the trend law of the spec on the same-metric
samples of the last 15 minutes: with fewer than 3 qualifying samples it is
"stable", otherwise it compares the second-half mean against 1.1 resp. 0.9
times the first-half mean. -/
theorem trend_law :
    ∀ (hist : List HealthMetric) (metric_name : String) (now v : ℚ),
      calculateTrend hist metric_name now v =
        trendLawSpec ((hist.filter (fun m =>
          m.metric_name == metric_name && decide (now - 900 < m.timestamp))).map
            (fun m => m.current_value)) := by
  intro hist metric_name now v
  unfold calculateTrend trendLawSpec
  simp only [List.length_map]
  set recent := hist.filter (fun m =>
    m.metric_name == metric_name && decide (now - 900 < m.timestamp)) with hrec
  by_cases h3 : recent.length < 3
  · rw [if_pos h3, if_pos h3]
  · rw [if_neg h3, if_neg h3]
    have hmin : min (recent.length / 2) recent.length = recent.length / 2 :=
      Nat.min_eq_left (Nat.div_le_self _ _)
    simp only [List.length_take, List.length_drop, List.length_map, hmin]

/-- C7: the `service_health` metric that `_monitor_category` builds for a
service reporting "critical" has value 0.0 and critical threshold 0, is
assigned status CRITICAL, and the alert created from it carries a message
containing the service name and the word "critical". -/
theorem critical_alert_scenario :
    ∀ (service_name : String) (hist : List HealthMetric) (now : ℚ)
      (getCategory : String → String),
      (monitorCategoryMetric service_name "critical" hist now).current_value = 0 ∧
      (monitorCategoryMetric service_name "critical" hist now).threshold_critical =
        some 0 ∧
      (monitorCategoryMetric service_name "critical" hist now).status = .critical ∧
      strContains
        (mkAlert getCategory (monitorCategoryMetric service_name "critical" hist now)).message
        service_name ∧
      strContains
        (mkAlert getCategory (monitorCategoryMetric service_name "critical" hist now)).message
        "critical" := by
  intro s hist now g
  have hmsg :
      (mkAlert g (monitorCategoryMetric s "critical" hist now)).message =
        "🚨" ++ " " ++ s ++ " service is " ++ "critical" := by
    simp [mkAlert, monitorCategoryMetric, generateAlertMessage,
      healthStatusOfString, statusEmoji, HealthStatus.value]
  refine ⟨by simp [monitorCategoryMetric], rfl,
    by simp [monitorCategoryMetric, healthStatusOfString], ?_, ?_⟩
  · refine ⟨("🚨" ++ " ").data, (" service is " ++ "critical").data, ?_⟩
    simp [hmsg, String.data_append, List.append_assoc]
  · refine ⟨("🚨" ++ " " ++ s ++ " service is ").data, ([] : List Char), ?_⟩
    simp [hmsg, String.data_append, List.append_assoc]

/-- C5: workflow non-abort, for every workflow and every error-setting node —
for any node list decomposed as `nodes_before ++ node_k :: nodes_after` and
any request, whenever node k leaves the state with its error field set, the
nodes after k still execute (the final state is exactly the fold of
`nodes_after` over the state node k produced) and their writes are what the
returned result map holds; and, for any run, `success = false` exactly when
the final error field is non-None, with that captured message as
`error_message`. -/
theorem workflow_non_abort :
    ∀ (nodes_before : List (WFState → WFState)) (node_k : WFState → WFState)
      (nodes_after : List (WFState → WFState))
      (workflow_type request_id : String) (params : List (String × String))
      (msg : String),
      ((node_k (runNodes nodes_before
          (initialAgentState workflow_type request_id params))).error = some msg →
        runNodes (nodes_before ++ node_k :: nodes_after)
            (initialAgentState workflow_type request_id params) =
          runNodes nodes_after (node_k (runNodes nodes_before
            (initialAgentState workflow_type request_id params))) ∧
        (executeWorkflowNodes (nodes_before ++ node_k :: nodes_after)
            workflow_type request_id params).result =
          (runNodes nodes_after (node_k (runNodes nodes_before
            (initialAgentState workflow_type request_id params)))).results ∧
        (executeWorkflowNodes (nodes_before ++ node_k :: nodes_after)
            workflow_type request_id params).error_message =
          (runNodes nodes_after (node_k (runNodes nodes_before
            (initialAgentState workflow_type request_id params)))).error) ∧
      ((executeWorkflowNodes (nodes_before ++ node_k :: nodes_after)
          workflow_type request_id params).success = false ↔
        (runNodes (nodes_before ++ node_k :: nodes_after)
          (initialAgentState workflow_type request_id params)).error ≠ none) := by
  intro pre nk post wt rid params msg
  have hsplit : runNodes (pre ++ nk :: post) (initialAgentState wt rid params) =
      runNodes post (nk (runNodes pre (initialAgentState wt rid params))) := by
    unfold runNodes
    rw [List.foldl_append, List.foldl_cons]
  constructor
  · intro _
    refine ⟨hsplit, ?_, ?_⟩
    · unfold executeWorkflowNodes
      rw [hsplit]
    · unfold executeWorkflowNodes
      rw [hsplit]
  · unfold executeWorkflowNodes
    cases herr : (runNodes (pre ++ nk :: post) (initialAgentState wt rid params)).error
      with
    | none => simp [herr]
    | some m => simp [herr]

/-- Witness for C5: the health-check workflow of the source with a missing
health reply — node 1 sets the error, node 2 still runs and its summary
write is in the result map, success is false, and the message is captured. -/
theorem workflow_non_abort_witness :
    (executeHealthCheckWorkflow none "req-1" []).result.lookup "health_summary" =
      some (.healthSummary
        { overall_health := "healthy"
          total_services := 0
          healthy_services := 0
          issues_detected := [] }) ∧
    (executeHealthCheckWorkflow none "req-1" []).success = false ∧
    (executeHealthCheckWorkflow none "req-1" []).error_message =
      some "Failed to get health data" := by
  have h := workflow_non_abort [] (healthCheckNode none) [processHealthResultsNode]
    "health_check" "req-1" [] "Failed to get health data"
  have h1 := (h.1 rfl).2.1
  refine ⟨?_, ?_, ?_⟩
  · rw [show (executeHealthCheckWorkflow none "req-1" []).result =
      (executeWorkflowNodes ([] ++ healthCheckNode none :: [processHealthResultsNode])
        "health_check" "req-1" []).result from rfl, h1]
    rfl
  · exact h.2.mpr (fun hc => Option.noConfusion hc)
  · exact ((h.1 rfl).2.2).trans rfl

/-- C6 counterexample: an envelope whose recipient is unknown is dropped,
yet the hub message history changes — `_handle_message` appends to the
history before routing, so the claim that a dropped envelope leaves the
history unchanged is false at this input. -/
theorem dropped_envelope_appends_history :
    msgGhost.recipient ≠ "broadcast" ∧
    hubEmpty.agents.lookup msgGhost.recipient = none ∧
    (handleMessage hubEmpty msgGhost).message_history ≠
      hubEmpty.message_history := by
  exact ⟨by decide, rfl, by decide⟩

/-- C6 amended: routing an envelope whose recipient is neither the broadcast
sentinel nor a registered agent changes the queue of no agent, but the envelope is
still appended to the bounded message history (the append happens before
routing, for dropped envelopes too). -/
theorem route_drop_frame :
    ∀ (st : HubState) (message : AgentMessage),
      message.recipient ≠ "broadcast" →
      st.agents.lookup message.recipient = none →
      (handleMessage st message).agents = st.agents ∧
      (handleMessage st message).message_history =
        (if (st.message_history ++ [message]).length > 1000
          then (st.message_history ++ [message]).drop 1
          else st.message_history ++ [message]) := by
  intro st m h1 h2
  unfold handleMessage
  refine ⟨?_, rfl⟩
  simp [h1, h2]

/-- Witness for C6 (amended) at a concrete unroutable envelope. -/
theorem route_drop_frame_witness :
    (handleMessage hubEmpty msgGhost).agents = hubEmpty.agents ∧
    (handleMessage hubEmpty msgGhost).message_history =
      (if (hubEmpty.message_history ++ [msgGhost]).length > 1000
        then (hubEmpty.message_history ++ [msgGhost]).drop 1
        else hubEmpty.message_history ++ [msgGhost]) :=
  route_drop_frame hubEmpty msgGhost (by decide) rfl

/-- C9 counterexample: `get_message_history(0)` on a hub holding one envelope
returns that envelope (the Python slice `[-0:]` is the whole list), not the
empty list of "the most recent 0 envelopes" the claim demands. -/
theorem history_limit_zero :
    getMessageHistory hubOne 0 = [msgGhost.toDict] ∧
    ([msgGhost.toDict] : List MessageDict) ≠ [] := by
  exact ⟨rfl, by decide⟩

/-- C9 amended: for every limit N ≥ 1, `get_message_history` returns exactly
the most recent N envelopes (all of them, in order, when fewer than N exist),
each converted to its dictionary form. -/
theorem message_history_query :
    ∀ (st : HubState) (limit : ℕ), 1 ≤ limit →
      getMessageHistory st limit =
        ((st.message_history.reverse.take limit).reverse).map
          AgentMessage.toDict := by
  intro st limit h
  unfold getMessageHistory
  rw [if_neg (by omega)]
  congr 1
  have h2 := List.rtake_eq_reverse_take_reverse st.message_history limit
  unfold List.rtake at h2
  exact h2

/-- Witness for C9 (amended) at limit 1 on a one-envelope hub. -/
theorem message_history_query_witness :
    getMessageHistory hubOne 1 = [msgGhost.toDict] := by
  have h := message_history_query hubOne 1 (by omega)
  simpa using h

/-- C4 counterexample: an alert only 10 minutes old whose service saw a
healthy same-metric sample within the last 5 minutes is nevertheless not
resolved, because a later unhealthy sample is the most recent one — the
claim wording "a same-service/metric sample within the last 5 minutes is healthy"
read existentially is false at this input. -/
theorem resolution_counterexample :
    (600 : ℚ) - alertC4.timestamp ≤ 1800 ∧
    mHealthyC4 ∈ recentSameMetric histC4 alertC4 600 ∧
    mHealthyC4.status = .healthy ∧
    shouldResolveAlert histC4 alertC4 600 = false := by
  have hlist : recentSameMetric histC4 alertC4 600 = [mHealthyC4, mCriticalC4] := by
    norm_num [recentSameMetric, histC4, alertC4, mHealthyC4, mCriticalC4, List.filter]
  refine ⟨by norm_num [alertC4], by rw [hlist]; exact List.mem_cons_self _ _, rfl, ?_⟩
  unfold shouldResolveAlert
  rw [if_neg (by norm_num [alertC4]), hlist]
  rfl

/-- C4 amended: for every active alert, the resolution check succeeds (and
`_evaluate_alerts` drops it from the active set and emits a status envelope)
if the alert is older than 30 minutes, or if the most recent
same-service/metric sample within the last 5 minutes is healthy; an alert
within 30 minutes whose most recent qualifying sample is absent or unhealthy
is not resolved and stays active. -/
theorem alert_resolution :
    ∀ (agent_id : String) (hist : String → List HealthMetric)
      (current_time : ℚ) (active : List (String × HealthAlert))
      (aid : String) (alert : HealthAlert),
      (aid, alert) ∈ active →
      ((1800 < current_time - alert.timestamp ∨
          (∃ latest,
            (recentSameMetric hist alert current_time).getLast? = some latest ∧
            latest.status = .healthy)) →
        shouldResolveAlert hist alert current_time = true ∧
        (aid, alert) ∉ (evaluateAlerts agent_id hist current_time active).1 ∧
        mkResolutionEnvelope agent_id alert current_time ∈
          (evaluateAlerts agent_id hist current_time active).2) ∧
      (current_time - alert.timestamp ≤ 1800 →
        (∀ latest,
          (recentSameMetric hist alert current_time).getLast? = some latest →
          latest.status ≠ .healthy) →
        shouldResolveAlert hist alert current_time = false ∧
        (aid, alert) ∈ (evaluateAlerts agent_id hist current_time active).1) := by
  intro ag hist t active aid alert hmem
  constructor
  · intro hres
    have hsr : shouldResolveAlert hist alert t = true := by
      unfold shouldResolveAlert
      by_cases hage : t - alert.timestamp > 1800
      · rw [if_pos hage]
      · rcases hres with h | ⟨latest, hl, hh⟩
        · exact absurd h hage
        · rw [if_neg hage, hl]
          simp [hh]
    refine ⟨hsr, ?_, ?_⟩
    · intro hcontra
      have h2 := (List.mem_filter.mp hcontra).2
      rw [hsr] at h2
      simp at h2
    · exact List.mem_map.mpr
        ⟨(aid, alert), List.mem_filter.mpr ⟨hmem, hsr⟩, rfl⟩
  · intro hage hnot
    have hsr : shouldResolveAlert hist alert t = false := by
      unfold shouldResolveAlert
      rw [if_neg (not_lt.mpr hage)]
      cases hl : (recentSameMetric hist alert t).getLast? with
      | none => rfl
      | some latest =>
          rw [beq_eq_false_iff_ne]
          exact hnot latest hl
    refine ⟨hsr, List.mem_filter.mpr ⟨hmem, by rw [hsr]; rfl⟩⟩

/-- Witness for C4 (amended): a 10000-second-old alert resolves, leaves the
active set, and produces a resolution envelope. -/
theorem alert_resolution_witness :
    shouldResolveAlert (fun _ => []) alertOldW 10000 = true ∧
    ("aW", alertOldW) ∉
      (evaluateAlerts "health_agent" (fun _ => []) 10000 [("aW", alertOldW)]).1 ∧
    mkResolutionEnvelope "health_agent" alertOldW 10000 ∈
      (evaluateAlerts "health_agent" (fun _ => []) 10000 [("aW", alertOldW)]).2 :=
  alert_resolution "health_agent" (fun _ => []) 10000 [("aW", alertOldW)]
    "aW" alertOldW (by simp) |>.1 (Or.inl (by norm_num [alertOldW]))

/-- C1: alert dedup — when an active alert for the same (service, metric)
pair was created less than the 300s cooldown before the creation
attempt of a new metric, `_create_alert` suppresses the new alert (the active map is
unchanged); and one `_create_alert` step preserves the invariant that no two
distinct active-map entries share a (service, metric) pair inside the
cooldown window. -/
theorem alert_dedup :
    ∀ (getCategory : String → String) (now : ℚ)
      (active : List (String × HealthAlert)) (m2 : HealthMetric)
      (a1 : HealthAlert),
      (a1 ∈ active.map Prod.snd →
        a1.service_name = m2.service_name →
        a1.details_metric_name = m2.metric_name →
        now - a1.timestamp < 300 →
        createAlert getCategory now active m2 = active) ∧
      ((active.map Prod.fst).Nodup →
        dedupFree now active →
        dedupFree now (createAlert getCategory now active m2)) := by
  intro g now active m2 a1
  constructor
  · intro hmem hsvc hmet htime
    have hfind : (findSimilarAlert now active m2).isSome := by
      unfold findSimilarAlert
      rw [List.find?_isSome]
      refine ⟨a1, hmem, ?_⟩
      simp only [Bool.and_eq_true, beq_iff_eq, decide_eq_true_eq]
      exact ⟨⟨hsvc, hmet⟩, by linarith⟩
    unfold createAlert
    obtain ⟨a, ha⟩ := Option.isSome_iff_exists.mp hfind
    rw [ha]
  · intro hnodup hfree
    unfold createAlert
    cases hfind : findSimilarAlert now active m2 with
    | some a => exact hfree
    | none =>
        have hnone := List.find?_eq_none.mp (by
          unfold findSimilarAlert at hfind
          exact hfind)
        have hkey : ∀ b ∈ active.map Prod.snd,
            b.service_name = m2.service_name →
            b.details_metric_name = m2.metric_name →
            now - 300 < b.timestamp → False := by
          intro b hb h1 h2 h3
          have hcontra := hnone b hb
          simp only [Bool.and_eq_true, beq_iff_eq, decide_eq_true_eq, not_and] at hcontra
          exact hcontra ⟨h1, h2⟩ h3
        unfold dictInsert
        by_cases hin : active.any (fun p => p.1 == alertIdOf m2)
        · rw [if_pos hin]
          unfold dedupFree
          rw [List.pairwise_map]
          have hkeys : List.Pairwise (fun p q : String × HealthAlert => p.1 ≠ q.1)
              active := List.pairwise_map.mp hnodup
          refine List.Pairwise.imp_of_mem ?_ (hfree.and hkeys)
          intro p q hp hq hpq
          obtain ⟨hrel, hne⟩ := hpq
          by_cases hpk : (p.1 == alertIdOf m2) = true <;>
            by_cases hqk : (q.1 == alertIdOf m2) = true
          · exact absurd ((beq_iff_eq.mp hpk).trans (beq_iff_eq.mp hqk).symm) hne
          · rw [if_pos hpk, if_neg hqk]
            intro h1 h2 h3 h4
            exact hkey q.2 (List.mem_map_of_mem _ hq) h1.symm h2.symm h4
          · rw [if_neg hpk, if_pos hqk]
            intro h1 h2 h3 h4
            exact hkey p.2 (List.mem_map_of_mem _ hp) h1 h2 h3
          · rw [if_neg hpk, if_neg hqk]
            exact hrel
        · rw [if_neg hin]
          unfold dedupFree
          rw [List.pairwise_append]
          refine ⟨hfree, List.pairwise_singleton _ _, ?_⟩
          intro p hp b hb h1 h2 h3 h4
          simp only [List.mem_singleton] at hb
          subst hb
          exact hkey p.2 (List.mem_map_of_mem _ hp) h1 h2 h3

/-- Witness for C1: a second (svcA, service_health) metric 100s after the
stored alert is suppressed, and the dedup invariant is preserved. -/
theorem alert_dedup_witness :
    createAlert (fun _ => "core") 1000 [("a1", alertW)] metricW =
      [("a1", alertW)] ∧
    dedupFree 1000 (createAlert (fun _ => "core") 1000 [("a1", alertW)] metricW) := by
  have h := alert_dedup (fun _ => "core") 1000 [("a1", alertW)] metricW alertW
  refine ⟨h.1 (by simp) rfl rfl (by norm_num [alertW]), ?_⟩
  exact h.2 (by simp) (by simp [dedupFree])

theorem corrSumSq_nonneg (x : List ℚ) (n : ℕ) : 0 ≤ corrSumSq x n :=
  Finset.sum_nonneg fun _ _ => sq_nonneg _

theorem corrNumerator_sq_le (x y : List ℚ) (n : ℕ) :
    corrNumerator x y n ^ 2 ≤ corrSumSq x n * corrSumSq y n :=
  Finset.sum_mul_sq_le_sq_mul_sq _ _ _

theorem corrNumerator_comm (x y : List ℚ) (n : ℕ) :
    corrNumerator x y n = corrNumerator y x n :=
  Finset.sum_congr rfl fun _ _ => mul_comm _ _

theorem corrN_comm (values1 values2 : List ℚ) :
    corrN values1 values2 = corrN values2 values1 :=
  Nat.min_comm _ _

theorem corrDenomSq_comm (values1 values2 : List ℚ) (n : ℕ) :
    corrDenomSq values1 values2 n = corrDenomSq values2 values1 n :=
  mul_comm _ _

theorem lastSlice_length (v : List ℚ) (n : ℕ) (h : n ≤ v.length) :
    (lastSlice v n).length = n := by
  unfold lastSlice
  rw [List.length_drop]
  omega

theorem corrSumSq_const (x : List ℚ) (n : ℕ) (hn : x.length = n) (h0 : n ≠ 0)
    (c : ℚ) (hc : ∀ a ∈ x, a = c) : corrSumSq x n = 0 := by
  have hsum : x.sum = (n : ℚ) * c := by
    rw [List.sum_eq_card_nsmul x c hc, hn, nsmul_eq_mul]
  have hmean : sliceMean x n = c := by
    unfold sliceMean
    rw [hsum]
    exact mul_div_cancel_left₀ c (Nat.cast_ne_zero.mpr h0)
  unfold corrSumSq
  apply Finset.sum_eq_zero
  intro i hi
  have hix : i < x.length := by
    rw [hn]
    exact Finset.mem_range.mp hi
  have hgi : x.getD i 0 = c := by
    rw [x.getD_eq_getElem 0 hix]
    exact hc _ (x.getElem_mem hix)
  rw [hgi, hmean, sub_self]
  exact zero_pow (by omega)

theorem corr_zero_of_vanishing_denom (values1 values2 : List ℚ)
    (h : corrDenomSq values1 values2 (corrN values1 values2) = 0) :
    calculateCorrelationCoefficient values1 values2 = 0 := by
  unfold calculateCorrelationCoefficient
  by_cases h2 : corrN values1 values2 < 2
  · rw [if_pos h2]
  · rw [if_neg h2, if_pos (by rw [h]; simp)]

theorem corr_zero_of_const_left (values1 values2 : List ℚ) (c : ℚ)
    (hc : ∀ a ∈ values1, a = c) :
    calculateCorrelationCoefficient values1 values2 = 0 := by
  by_cases h2 : corrN values1 values2 < 2
  · unfold calculateCorrelationCoefficient
    rw [if_pos h2]
  · apply corr_zero_of_vanishing_denom
    unfold corrDenomSq
    have hmin : corrN values1 values2 ≤ values1.length := Nat.min_le_left _ _
    have hlen : (lastSlice values1 (corrN values1 values2)).length =
        corrN values1 values2 := lastSlice_length _ _ hmin
    have hsub : ∀ a ∈ lastSlice values1 (corrN values1 values2), a = c :=
      fun a ha => hc a (List.drop_subset _ _ ha)
    rw [corrSumSq_const _ _ hlen (by omega) c hsub, zero_mul]

theorem corr_zero_of_const_right (values1 values2 : List ℚ) (c : ℚ)
    (hc : ∀ a ∈ values2, a = c) :
    calculateCorrelationCoefficient values1 values2 = 0 := by
  by_cases h2 : corrN values1 values2 < 2
  · unfold calculateCorrelationCoefficient
    rw [if_pos h2]
  · apply corr_zero_of_vanishing_denom
    unfold corrDenomSq
    have hmin : corrN values1 values2 ≤ values2.length := Nat.min_le_right _ _
    have hlen : (lastSlice values2 (corrN values1 values2)).length =
        corrN values1 values2 := lastSlice_length _ _ hmin
    have hsub : ∀ a ∈ lastSlice values2 (corrN values1 values2), a = c :=
      fun a ha => hc a (List.drop_subset _ _ ha)
    rw [corrSumSq_const _ _ hlen (by omega) c hsub, mul_zero]

theorem corr_abs_le_one (values1 values2 : List ℚ) :
    |calculateCorrelationCoefficient values1 values2| ≤ 1 := by
  unfold calculateCorrelationCoefficient
  by_cases h2 : corrN values1 values2 < 2
  · rw [if_pos h2]
    norm_num
  · rw [if_neg h2]
    by_cases hd :
        Real.sqrt ((corrDenomSq values1 values2 (corrN values1 values2) : ℚ) : ℝ) = 0
    · rw [if_pos hd]
      norm_num
    · rw [if_neg hd]
      have hpos : 0 < Real.sqrt
          ((corrDenomSq values1 values2 (corrN values1 values2) : ℚ) : ℝ) :=
        (Real.sqrt_nonneg _).lt_of_ne (Ne.symm hd)
      rw [abs_div, abs_of_pos hpos, div_le_one hpos]
      apply Real.abs_le_sqrt
      have hcs := corrNumerator_sq_le (lastSlice values1 (corrN values1 values2))
        (lastSlice values2 (corrN values1 values2)) (corrN values1 values2)
      calc ((corrNumerator (lastSlice values1 (corrN values1 values2))
            (lastSlice values2 (corrN values1 values2)) (corrN values1 values2) : ℚ) : ℝ) ^ 2
          = ((corrNumerator (lastSlice values1 (corrN values1 values2))
              (lastSlice values2 (corrN values1 values2)) (corrN values1 values2) ^ 2 : ℚ) : ℝ) := by
            push_cast
            ring
        _ ≤ ((corrDenomSq values1 values2 (corrN values1 values2) : ℚ) : ℝ) := by
            exact_mod_cast hcs

theorem corr_symm (values1 values2 : List ℚ) :
    calculateCorrelationCoefficient values1 values2 =
      calculateCorrelationCoefficient values2 values1 := by
  unfold calculateCorrelationCoefficient
  rw [corrN_comm values2 values1, corrDenomSq_comm values2 values1,
    corrNumerator_comm (lastSlice values2 (corrN values1 values2))
      (lastSlice values1 (corrN values1 values2))]

/-- C3: the computed Pearson coefficient of two equal-length sequences lies
in [-1, 1], is symmetric, and is exactly 0 with fewer than 2 samples or when
either sequence has zero variance (all elements equal). -/
theorem correlation_properties :
    ∀ (x y : List ℚ), x.length = y.length →
      calculateCorrelationCoefficient x y ∈ Set.Icc (-1 : ℝ) 1 ∧
      calculateCorrelationCoefficient x y = calculateCorrelationCoefficient y x ∧
      (x.length < 2 → calculateCorrelationCoefficient x y = 0) ∧
      (∀ c : ℚ, (∀ a ∈ x, a = c) → calculateCorrelationCoefficient x y = 0) ∧
      (∀ c : ℚ, (∀ a ∈ y, a = c) → calculateCorrelationCoefficient x y = 0) := by
  intro x y hlen
  refine ⟨?_, corr_symm x y, ?_, ?_, ?_⟩
  · rw [Set.mem_Icc, ← abs_le]
    exact corr_abs_le_one x y
  · intro hshort
    unfold calculateCorrelationCoefficient
    rw [if_pos (by unfold corrN; omega)]
  · exact corr_zero_of_const_left x y
  · exact corr_zero_of_const_right x y

/-- Witness for C3 at concrete sequences: a two-element pair is inside
[-1, 1], and a constant sequence gives coefficient exactly 0. -/
theorem correlation_properties_witness :
    calculateCorrelationCoefficient [1, 2] [3, 5] ∈ Set.Icc (-1 : ℝ) 1 ∧
    calculateCorrelationCoefficient [4, 4] [3, 5] = 0 := by
  refine ⟨(correlation_properties [1, 2] [3, 5] rfl).1, ?_⟩
  exact (correlation_properties [4, 4] [3, 5] rfl).2.2.2.1 4 (by
    intro a ha
    simp only [List.mem_cons, List.not_mem_nil, or_false] at ha
    rcases ha with h | h <;> exact h)

end WatchTower
